import Mathlib

deriving instance DecidableEq for Except

/-!
Shallow embedding of the authentication / account-protection core of the
`adonisjs-pg` repository, together with proofs checking the natural-language
specification against it.

Modelling conventions:
* Machine time (`Date.now()`) is a `Nat` of milliseconds, passed explicitly.
* The external key-value cache (the `CacheService` / `@adonisjs/cache`
  collaborator) is an association list of entries with an optional absolute
  expiry timestamp; `cacheGet` is TTL-aware (lazy expiry on read), matching
  the spec's cache contract `get/set/delete with TTL`.
* Cache keys are modelled structurally: every constructor of `CKey` stands
  for one string key pattern built in the source (e.g. `verify_email:{email}`);
  the string prefixes of distinct patterns never collide, so distinct
  constructors are a faithful rendering.
* SHA-256 is an uninterpreted function `sha256 : String → String` passed as
  an explicit argument; `randomBytes` entropy is likewise passed in as the
  plaintext argument.
* Outbound e-mail (`EmailService.send`) is modelled as appending to a list of
  `Email` records; the large HTML bodies are elided, the recipient and the
  subject line are kept.
-/

/-- Cached values: the source stores strings (token digests), numbers
(timestamps, counters), `RateLimitData` records and serialized users. -/
inductive CVal where
  | str (s : String)
  | num (n : Nat)
  | rl (attempts : Nat) (firstAttempt : Nat) (blockedUntil : Option Nat)
  | usr (uid : Nat)
  deriving DecidableEq, Repr

/-- Structured cache keys; each constructor is one key pattern of the source. -/
inductive CKey where
  /-- `ratelimit:attempts:{identifier}:{ip}` (read by `getFailedAttempts`). -/
  | rlAttempts (id ip : String)
  /-- window-start slot of the RateLimiter state for `{identifier}:{ip}`. -/
  | rlWindow (id ip : String)
  /-- block slot of the RateLimiter state for `{identifier}:{ip}`. -/
  | rlBlocked (id ip : String)
  /-- `account:blocked:{identifier}`. -/
  | accountBlocked (id : String)
  /-- `verify_email:{email}`. -/
  | verifyEmail (email : String)
  /-- `reset:{email}`. -/
  | resetKey (email : String)
  /-- per-user cache entry `sharedCache.user.userKey(id)`. -/
  | userKey (uid : Nat)
  /-- user list cache entry `sharedCache.user.listKey`. -/
  | userList
  /-- `rate_limit:{ip}:{key}` (AppKeyService). -/
  | rateLimit (ip key : String)
  /-- `key_blocked:{keyId}` (AppKeyService). -/
  | keyBlocked (keyId : Nat)
  deriving DecidableEq, Repr

/-- A cache entry: value plus optional absolute expiry time (ms). -/
structure Entry where
  val : CVal
  expiresAt : Option Nat
  deriving DecidableEq, Repr

abbrev Store := List (CKey × Entry)

/-- TTL-aware read: an entry past its expiry is absent. -/
def cacheGet : Store → Nat → CKey → Option CVal
  | [], _, _ => none
  | (k', e) :: rest, now, k =>
    if k' = k then
      match e.expiresAt with
      | none => some e.val
      | some t => if now < t then some e.val else none
    else cacheGet rest now k

/-- Delete a key. -/
def cacheDel : Store → CKey → Store
  | [], _ => []
  | (k', e) :: rest, k => if k' = k then cacheDel rest k else (k', e) :: cacheDel rest k

/-- Write a key (replacing any previous entry). -/
def cacheSet (s : Store) (k : CKey) (v : CVal) (exp : Option Nat) : Store :=
  (k, ⟨v, exp⟩) :: cacheDel s k

/-- `crypto.timingSafeEqual` on two hex strings: throws a `RangeError` when the
byte lengths differ, otherwise compares contents (in constant time). -/
def timingSafeEqual (a b : String) : Except String Bool :=
  if a.length = b.length then .ok (a = b)
  else .error "RangeError: Input buffers must have the same byte length"

/-- Result record of `TokenService.generateSecureToken`. -/
structure TokenGenerationResult where
  token : String
  hash : String
  deriving DecidableEq, Repr

/-- `TokenService.generateSecureToken`: `randomBytes(16).toString('hex')` is
modelled by taking the random plaintext `rnd` as an argument; the digest is
`sha256` of it (hex encoding folded into the abstract `sha256`). -/
def TokenService.generateSecureToken (sha256 : String → String) (rnd : String) :
    TokenGenerationResult :=
  { token := rnd, hash := sha256 rnd }

/-- `TokenService.storeTokenHash`: stores the digest under `key` with TTL. -/
def TokenService.storeTokenHash (store : Store) (now : Nat) (key : CKey) (hsh : String)
    (ttl : Nat) : Store :=
  cacheSet store key (.str hsh) (some (now + ttl))

/-- `TokenService.validateToken`: reads the stored digest; a falsy read
(absent, expired, or the empty string) throws `Token inválido ou expirado`;
otherwise recomputes the candidate digest and compares with
`timingSafeEqual`, throwing the same message on mismatch.  The function
never returns `false`: it either returns `true` or throws. -/
def TokenService.validateToken (sha256 : String → String) (store : Store) (now : Nat)
    (cacheKey : CKey) (token : String) : Except String Bool :=
  match cacheGet store now cacheKey with
  | some (.str storedHash) =>
    if storedHash = "" then .error "Token inválido ou expirado"
    else
      let providedHash := sha256 token
      match timingSafeEqual storedHash providedHash with
      | .error e => .error e
      | .ok b => if b then .ok true else .error "Token inválido ou expirado"
  | _ => .error "Token inválido ou expirado"

/-- `identifier.trim().toLowerCase()`: JS string normalization, modelled over
the character list (whitespace trimmed on both ends, characters lowered). -/
def normalizeEmail (s : String) : String :=
  ⟨((s.data.dropWhile Char.isWhitespace).reverse.dropWhile Char.isWhitespace).reverse.map
    Char.toLower⟩

/-- RateLimiter configuration `{maxAttempts, windowMs, blockTimeMs}`. -/
structure RateLimitConfig where
  maxAttempts : Nat
  windowMs : Nat
  blockTimeMs : Nat
  deriving DecidableEq, Repr

/-- Result of `RateLimiter.check`. -/
structure RateLimitCheckResult where
  allowed : Bool
  attemptsRemaining : Nat
  blockedUntil : Option Nat
  deriving DecidableEq, Repr

/-- Modelled from the spec: `RateLimiter.check` (the RateLimiter implementation
`app/services/security/rate_limiter.ts` is not among the provided sources; only
its callers are).  Per spec §4.2: if blocked and unexpired, `allowed = false`;
if the window has expired, the state is treated as fresh (0 attempts, record
removed — expiry of the window is lazy, checked on read); otherwise
`allowed = attempts < maxAttempts`.  The state is keyed by `(identifier, ip)`;
the attempts counter lives at `ratelimit:attempts:{identifier}:{ip}`, the key
format observed in `LoginProtectionService.getFailedAttempts`. -/
def RateLimiter.check (id ip : String) (cfg : RateLimitConfig) (store : Store) (now : Nat) :
    RateLimitCheckResult × Store :=
  let blocked : Option Nat :=
    match cacheGet store now (.rlBlocked id ip) with
    | some (.num bu) => if now < bu then some bu else none
    | _ => none
  match blocked with
  | some bu => (⟨false, 0, some bu⟩, store)
  | none =>
    match cacheGet store now (.rlWindow id ip), cacheGet store now (.rlAttempts id ip) with
    | some (.num ws), some (.num n) =>
      if now - ws > cfg.windowMs then
        (⟨true, cfg.maxAttempts, none⟩,
          cacheDel (cacheDel (cacheDel store (.rlAttempts id ip)) (.rlWindow id ip))
            (.rlBlocked id ip))
      else
        (⟨n < cfg.maxAttempts, cfg.maxAttempts - n, none⟩, store)
    | _, _ => (⟨true, cfg.maxAttempts, none⟩, store)

/-- Modelled from the spec: `RateLimiter.recordAttempt`.  Per spec §4.2:
increments attempts, creating state with `windowStart = now` if absent or
expired; when the increment reaches `maxAttempts` it sets
`blockedUntil = now + blockTimeMs` and extends the record's TTL to
`blockTimeMs`, otherwise the TTL is `windowMs`. -/
def RateLimiter.recordAttempt (id ip : String) (cfg : RateLimitConfig) (store : Store)
    (now : Nat) : Store :=
  let current : Option (Nat × Nat) :=
    match cacheGet store now (.rlWindow id ip), cacheGet store now (.rlAttempts id ip) with
    | some (.num ws), some (.num n) => if now - ws > cfg.windowMs then none else some (ws, n)
    | _, _ => none
  let ws := match current with | some (w, _) => w | none => now
  let n' := (match current with | some (_, n) => n | none => 0) + 1
  if cfg.maxAttempts ≤ n' then
    cacheSet
      (cacheSet
        (cacheSet store (.rlAttempts id ip) (.num n') (some (now + cfg.blockTimeMs)))
        (.rlWindow id ip) (.num ws) (some (now + cfg.blockTimeMs)))
      (.rlBlocked id ip) (.num (now + cfg.blockTimeMs)) (some (now + cfg.blockTimeMs))
  else
    cacheSet
      (cacheSet store (.rlAttempts id ip) (.num n') (some (now + cfg.windowMs)))
      (.rlWindow id ip) (.num ws) (some (now + cfg.windowMs))

/-- Modelled from the spec: `RateLimiter.clearAttempts` deletes the state for
the composite key `(identifier, ip)` entirely. -/
def RateLimiter.clearAttempts (id ip : String) (store : Store) : Store :=
  cacheDel (cacheDel (cacheDel store (.rlAttempts id ip)) (.rlWindow id ip)) (.rlBlocked id ip)

/-- An outbound e-mail; the templated HTML body is elided, the recipient and
subject line are kept. -/
structure Email where
  /-- the `to` field of `EmailService.send` (`to` is reserved in Lean). -/
  toAddr : String
  subject : String
  deriving DecidableEq, Repr

/-- `LoginProtectionService.MAX_ATTEMPTS`. -/
def LoginProtectionService.MAX_ATTEMPTS : Nat := 5
/-- `LoginProtectionService.WINDOW_MS` (15 min). -/
def LoginProtectionService.WINDOW_MS : Nat := 15 * 60 * 1000
/-- `LoginProtectionService.BLOCK_TIME_MS` (30 min). -/
def LoginProtectionService.BLOCK_TIME_MS : Nat := 30 * 60 * 1000
/-- `LoginProtectionService.EXTENDED_BLOCK_TIME_MS` (2 h). -/
def LoginProtectionService.EXTENDED_BLOCK_TIME_MS : Nat := 2 * 60 * 60 * 1000

/-- `LoginProtectionService.RATE_LIMIT_CONFIG`. -/
def LoginProtectionService.RATE_LIMIT_CONFIG : RateLimitConfig :=
  { maxAttempts := LoginProtectionService.MAX_ATTEMPTS
    windowMs := LoginProtectionService.WINDOW_MS
    blockTimeMs := LoginProtectionService.BLOCK_TIME_MS }

/-- Result record of `LoginProtectionService.checkLoginAttempt`. -/
structure LoginProtectionResult where
  allowed : Bool
  attemptsRemaining : Nat
  blockedUntil : Option Nat
  isBlocked : Bool
  deriving DecidableEq, Repr

/-- `LoginProtectionService.getAccountBlockKey`: `account:blocked:{identifier}`. -/
def LoginProtectionService.getAccountBlockKey (id : String) : CKey := .accountBlocked id

/-- `LoginProtectionService.isAccountBlocked`:
`blockedUntil !== null && Date.now() < blockedUntil`. -/
def LoginProtectionService.isAccountBlocked (store : Store) (now : Nat) (id : String) : Bool :=
  match cacheGet store now (LoginProtectionService.getAccountBlockKey id) with
  | some (.num bu) => now < bu
  | _ => false

/-- `LoginProtectionService.checkLoginAttempt`: first runs `RateLimiter.check`
on `login:{identifier}` with the presented ip, then checks the account-level
block; if the account is blocked it returns `allowed := false` with the stored
`blockedUntil` (a stored `0` is folded to `undefined` by `|| undefined`),
discarding the rate-limiter result; otherwise it forwards the rate-limiter
result with `isBlocked := false`. -/
def LoginProtectionService.checkLoginAttempt (id ip : String) (store : Store) (now : Nat) :
    LoginProtectionResult × Store :=
  let r := RateLimiter.check ("login:" ++ id) ip LoginProtectionService.RATE_LIMIT_CONFIG
    store now
  let rateLimitCheck := r.1
  let store1 := r.2
  if LoginProtectionService.isAccountBlocked store1 now id then
    let bu : Option Nat :=
      match cacheGet store1 now (LoginProtectionService.getAccountBlockKey id) with
      | some (.num v) => if v = 0 then none else some v
      | _ => none
    (⟨false, 0, bu, true⟩, store1)
  else
    (⟨rateLimitCheck.allowed, rateLimitCheck.attemptsRemaining, rateLimitCheck.blockedUntil,
      false⟩, store1)

/-- `LoginProtectionService.blockAccount`: stores
`blockedUntil = now + EXTENDED_BLOCK_TIME_MS` with a TTL of the same length. -/
def LoginProtectionService.blockAccount (id : String) (store : Store) (now : Nat) : Store :=
  cacheSet store (LoginProtectionService.getAccountBlockKey id)
    (.num (now + LoginProtectionService.EXTENDED_BLOCK_TIME_MS))
    (some (now + LoginProtectionService.EXTENDED_BLOCK_TIME_MS))

/-- `LoginProtectionService.getFailedAttempts`: raw read of
`ratelimit:attempts:login:{identifier}:{ip}`, defaulting to 0. -/
def LoginProtectionService.getFailedAttempts (store : Store) (now : Nat) (id ip : String) :
    Nat :=
  match cacheGet store now (.rlAttempts ("login:" ++ id) ip) with
  | some (.num n) => n
  | _ => 0

/-- The `Conta temporariamente bloqueada` e-mail of
`LoginProtectionService.sendAccountBlockedEmail`. -/
def LoginProtectionService.accountBlockedEmail (email : String) : Email :=
  { toAddr := email
    subject := "Conta temporariamente bloqueada - Tentativas de login suspeitas" }

/-- `LoginProtectionService.clearLoginAttempts`: delegates to
`RateLimiter.clearAttempts` for `login:{identifier}` and the given ip. -/
def LoginProtectionService.clearLoginAttempts (id ip : String) (store : Store) : Store :=
  RateLimiter.clearAttempts ("login:" ++ id) ip store

/-- `LoginProtectionService.recordLoginAttempt`.  On success clears the
rate-limiter state for `login:{identifier}` and the given ip.  On failure
records a rate-limiter attempt, then reads the raw failed-attempt counter; when
it reaches `MAX_ATTEMPTS`, blocks the account and — when both `userEmail` and
`userName` are present and truthy (non-empty) — sends the account-blocked
e-mail.  Returns the new store and the e-mails sent. -/
def LoginProtectionService.recordLoginAttempt (id ip : String) (success : Bool)
    (userName userEmail : Option String) (store : Store) (now : Nat) :
    Store × List Email :=
  if success then
    (LoginProtectionService.clearLoginAttempts id ip store, [])
  else
    let store1 := RateLimiter.recordAttempt ("login:" ++ id) ip
      LoginProtectionService.RATE_LIMIT_CONFIG store now
    let attempts := LoginProtectionService.getFailedAttempts store1 now id ip
    if LoginProtectionService.MAX_ATTEMPTS ≤ attempts then
      let store2 := LoginProtectionService.blockAccount id store1 now
      match userEmail, userName with
      | some e, some n =>
        if e = "" ∨ n = "" then (store2, [])
        else (store2, [LoginProtectionService.accountBlockedEmail e])
      | _, _ => (store2, [])
    else
      (store1, [])

/-- A user record (the fields of the `users` table the core reads/writes).
`isDeleted` is `boolean | null` in the source; `null` and `false` are both
falsy there, so it is modelled as `Bool`. -/
structure UserRec where
  id : Nat
  email : Option String
  username : String
  name : String
  isActive : Bool
  isDeleted : Bool
  password : String
  emailVerifiedAt : Option Nat
  lastLoginAt : Option Nat
  lastIp : Option String
  deriving DecidableEq, Repr

/-- The state threaded through the flows: the external cache, the persisted
users, and the e-mails dispatched so far. -/
structure St where
  cache : Store
  users : List UserRec
  emails : List Email
  deriving DecidableEq, Repr

/-- Modelled from the spec: `sharedCache.user.invalidateUser(id)` (the shared
cache service `app/services/shared/cache_service.ts` is not among the provided
sources).  Per spec §4.5 every mutation invalidates (deletes) both the per-id
entry and the list-level entry. -/
def invalidateUser (s : Store) (uid : Nat) : Store :=
  cacheDel (cacheDel s (.userKey uid)) .userList

/-- `UserService.isActive` (on a found user): `user.isActive && !user.isDeleted`. -/
def UserService.isActive (u : UserRec) : Bool :=
  u.isActive && !u.isDeleted

/-- `User.query().where('email', e).first()` — first user whose e-mail is `e`. -/
def findByEmail (users : List UserRec) (e : String) : Option UserRec :=
  users.find? (fun u => u.email = some e)

/-- `User.query().where('email', e).orWhere('username', e).first()`. -/
def findByEmailOrUsername (users : List UserRec) (e : String) : Option UserRec :=
  users.find? (fun u => u.email = some e || u.username = e)

/-- Modelled from `@adonisjs/auth` `withAuthFinder` (external dependency,
configured with `uids: ['email']`): `User.verifyCredentials(uid, password)`
looks the user up by e-mail and throws `E_INVALID_CREDENTIALS` when the user
is absent or the password hash does not match; it never returns `null`.
Scrypt hash verification is modelled by plain string comparison. -/
def verifyCredentials (users : List UserRec) (uid password : String) : Except String UserRec :=
  match findByEmail users uid with
  | none => .error "Invalid user credentials"
  | some u => if u.password = password then .ok u else .error "Invalid user credentials"

/-- `EmailVerificationService.VERIFY_TTL` (`'24h'`), in ms. -/
def EmailVerificationService.VERIFY_TTL : Nat := 24 * 60 * 60 * 1000

/-- `EmailVerificationService.getVerifyKey`: `verify_email:{email}`. -/
def EmailVerificationService.getVerifyKey (email : String) : CKey := .verifyEmail email

/-- The e-mail of `EmailVerificationService.sendVerificationEmail`. -/
def EmailVerificationService.verificationEmail (toAddr : String) : Email :=
  { toAddr := toAddr, subject := "Verificação de E-mail" }

/-- `user.email || user.username`: an absent or empty e-mail is falsy. -/
def emailOrUsername (u : UserRec) : String :=
  match u.email with
  | some e => if e = "" then u.username else e
  | none => u.username

/-- `EmailVerificationService.requestEmailVerification`.  `cfg` stands for
`RateLimiter.getDefaultConfig()` (implementation not among the sources) and
`rnd` for the `randomBytes` entropy of the generated token.  Checks the
`verify:` rate limit; if not allowed, returns `false` having changed nothing
but the limiter's own lazy-expiry state; otherwise records an attempt,
generates and stores the token digest with `VERIFY_TTL`, and dispatches the
verification e-mail carrying the plaintext. -/
def EmailVerificationService.requestEmailVerification (sha256 : String → String)
    (cfg : RateLimitConfig) (rnd : String) (user : UserRec) (ip : String) (s : St)
    (now : Nat) : Except String Bool × St :=
  let normalizedEmail := normalizeEmail (emailOrUsername user)
  let r := RateLimiter.check ("verify:" ++ normalizedEmail) ip cfg s.cache now
  if !r.1.allowed then
    (.ok false, { s with cache := r.2 })
  else
    let c2 := RateLimiter.recordAttempt ("verify:" ++ normalizedEmail) ip cfg r.2 now
    let g := TokenService.generateSecureToken sha256 rnd
    let c3 := TokenService.storeTokenHash c2 now
      (EmailVerificationService.getVerifyKey normalizedEmail) g.hash
      EmailVerificationService.VERIFY_TTL
    (.ok true,
      { s with
        cache := c3
        emails := s.emails ++
          [EmailVerificationService.verificationEmail (emailOrUsername user)] })

/-- `EmailVerificationService.cleanupAfterVerification`: invalidates the user
cache, deletes the stored verify digest, clears the `verify:` rate limit. -/
def EmailVerificationService.cleanupAfterVerification (userId : Nat) (email ip : String)
    (store : Store) : Store :=
  RateLimiter.clearAttempts ("verify:" ++ email) ip
    (cacheDel (invalidateUser store userId) (EmailVerificationService.getVerifyKey email))

/-- `EmailVerificationService.verifyEmail`: validates the token against the
stored digest (throwing `Token inválido ou expirado` on absence or mismatch),
loads the user by the normalized e-mail (`firstOrFail`), sets
`emailVerifiedAt`, and runs the cleanup. -/
def EmailVerificationService.verifyEmail (sha256 : String → String) (email token ip : String)
    (s : St) (now : Nat) : Except String Bool × St :=
  let normalizedEmail := normalizeEmail email
  match TokenService.validateToken sha256 s.cache now
      (EmailVerificationService.getVerifyKey normalizedEmail) token with
  | .error e => (.error e, s)
  | .ok _ =>
    match findByEmail s.users normalizedEmail with
    | none => (.error "Row not found", s)
    | some user =>
      let users' := s.users.map
        (fun u => if u.id = user.id then { u with emailVerifiedAt := some now } else u)
      let c := EmailVerificationService.cleanupAfterVerification user.id normalizedEmail ip
        s.cache
      (.ok true, { cache := c, users := users', emails := s.emails })

/-- `PasswordService.RESET_TTL` (`'15m'`), in ms. -/
def PasswordService.RESET_TTL : Nat := 15 * 60 * 1000

/-- `PasswordService.getResetKey`: `reset:{email}`. -/
def PasswordService.getResetKey (email : String) : CKey := .resetKey email

/-- The e-mail of `PasswordService.sendResetEmail`. -/
def PasswordService.resetEmail (toAddr : String) : Email :=
  { toAddr := toAddr, subject := "Recuperação de senha" }

/-- The e-mail of `PasswordService.sendSuccessEmail`. -/
def PasswordService.successEmail (toAddr : String) : Email :=
  { toAddr := toAddr, subject := "Senha alterada com sucesso" }

/-- The e-mail of `PasswordService.sendBlockedNotification`. -/
def PasswordService.blockedEmail (toAddr : String) : Email :=
  { toAddr := toAddr, subject := "Tentativas excessivas de recuperação de senha" }

/-- `PasswordService.requestPasswordReset`.  Loads the user by the normalized
e-mail (`firstOrFail` — absent user throws), rejects inactive/deleted users,
checks the `reset:` rate limit; when not allowed it sends the
excessive-attempts notification and returns `false`; otherwise it records an
attempt, stores the generated token digest with `RESET_TTL` and dispatches the
reset e-mail. -/
def PasswordService.requestPasswordReset (sha256 : String → String) (cfg : RateLimitConfig)
    (rnd : String) (email ip : String) (s : St) (now : Nat) : Except String Bool × St :=
  let normalizedEmail := normalizeEmail email
  match findByEmail s.users normalizedEmail with
  | none => (.error "Row not found", s)
  | some user =>
    if !user.isActive || user.isDeleted then (.error "Usuário inativo", s)
    else
      let r := RateLimiter.check ("reset:" ++ normalizedEmail) ip cfg s.cache now
      if !r.1.allowed then
        (.ok false,
          { s with
            cache := r.2
            emails := s.emails ++ [PasswordService.blockedEmail (emailOrUsername user)] })
      else
        let c2 := RateLimiter.recordAttempt ("reset:" ++ normalizedEmail) ip cfg r.2 now
        let g := TokenService.generateSecureToken sha256 rnd
        let c3 := TokenService.storeTokenHash c2 now
          (PasswordService.getResetKey normalizedEmail) g.hash PasswordService.RESET_TTL
        (.ok true,
          { s with
            cache := c3
            emails := s.emails ++ [PasswordService.resetEmail (emailOrUsername user)] })

/-- `PasswordService.cleanupAfterReset`: invalidates the user cache, deletes
the stored reset digest, clears the `reset:` rate limit. -/
def PasswordService.cleanupAfterReset (userId : Nat) (email ip : String) (store : Store) :
    Store :=
  RateLimiter.clearAttempts ("reset:" ++ email) ip
    (cacheDel (invalidateUser store userId) (PasswordService.getResetKey email))

/-- `PasswordService.resetPassword`: validates the token (throwing
`Token inválido ou expirado` on absence or mismatch), loads the user
(`firstOrFail`), rejects inactive/deleted users, sets the new password, runs
the cleanup and sends the success e-mail. -/
def PasswordService.resetPassword (sha256 : String → String)
    (email token password ip : String) (s : St) (now : Nat) : Except String Bool × St :=
  let normalizedEmail := normalizeEmail email
  match TokenService.validateToken sha256 s.cache now
      (PasswordService.getResetKey normalizedEmail) token with
  | .error e => (.error e, s)
  | .ok _ =>
    match findByEmail s.users normalizedEmail with
    | none => (.error "Row not found", s)
    | some user =>
      if !user.isActive || user.isDeleted then (.error "Usuário inativo", s)
      else
        let users' := s.users.map
          (fun u => if u.id = user.id then { u with password := password } else u)
        let c := PasswordService.cleanupAfterReset user.id normalizedEmail ip s.cache
        (.ok true,
          { cache := c
            users := users'
            emails := s.emails ++ [PasswordService.successEmail (emailOrUsername user)] })

/-- `AuthService.login`.  Empty credentials throw `Credenciais inválidas`
without touching the protection state.  Otherwise `checkLoginAttempt` runs on
the normalized identifier; when denied, the blocked / rate-limited exception
is thrown.  A missing or inactive user records a failed attempt and throws
`Credenciais inválidas`.  The password check is `User.verifyCredentials`,
which throws `E_INVALID_CREDENTIALS` itself on mismatch, so the subsequent
`if (!authUser)` recording branch in the source is unreachable and is not
represented here.  On success a successful attempt is recorded (clearing the
limiter state), the login metadata is updated and the user snapshot is cached
for 1 h; access-token creation is outside the modelled state (the returned
payload is the user id). -/
def AuthService.login (email password ip : String) (s : St) (now : Nat) :
    Except String Nat × St :=
  if email = "" || password = "" then (.error "Credenciais inválidas", s)
  else
    let identifier := normalizeEmail email
    let r := LoginProtectionService.checkLoginAttempt identifier ip s.cache now
    let loginCheck := r.1
    let s1 : St := { s with cache := r.2 }
    if !loginCheck.allowed then
      if loginCheck.isBlocked then
        (.error "Conta temporariamente bloqueada devido a múltiplas tentativas de login. Verifique seu email.", s1)
      else
        (.error "Muitas tentativas de login. Tente novamente em alguns minutos.", s1)
    else
      let failRecord : Option String × Option String → Except String Nat × St :=
        fun p =>
          let rec2 := LoginProtectionService.recordLoginAttempt identifier ip false p.1 p.2
            s1.cache now
          (.error "Credenciais inválidas",
            { s1 with
              cache := rec2.1
              emails := s1.emails ++ rec2.2 })
      match findByEmailOrUsername s1.users email with
      | none => failRecord (none, none)
      | some user =>
        if !UserService.isActive user then failRecord (none, none)
        else
          match verifyCredentials s1.users email password with
          | .error e => (.error e, s1)
          | .ok authUser =>
            let rec2 := LoginProtectionService.recordLoginAttempt identifier ip true none none
              s1.cache now
            let users' := s1.users.map
              (fun u => if u.id = authUser.id then
                { u with lastLoginAt := some now, lastIp := some ip } else u)
            let c := cacheSet rec2.1 (.userKey authUser.id) (.usr authUser.id)
              (some (now + 60 * 60 * 1000))
            (.ok authUser.id, { cache := c, users := users', emails := s1.emails ++ rec2.2 })

/-- `AppKeyService.MAX_ATTEMPTS`. -/
def AppKeyService.MAX_ATTEMPTS : Nat := 5
/-- `AppKeyService.RATE_LIMIT_WINDOW` (seconds). -/
def AppKeyService.RATE_LIMIT_WINDOW : Nat := 60
/-- `AppKeyService.BLOCK_DURATION` (seconds). -/
def AppKeyService.BLOCK_DURATION : Nat := 900

/-- `AppKeyService.safeCompare`: hashes both sides with SHA-256 and compares
the digests with `timingSafeEqual`.  Both digests are 32 bytes, so the
length-mismatch `RangeError` cannot fire, and the surrounding `try/catch`
returns `false` on any error anyway — the function is total. -/
def AppKeyService.safeCompare (sha256 : String → String) (expected provided : String) : Bool :=
  sha256 expected == sha256 provided

/-- `AppKeyService.checkRateLimit` (returns `true` when the presented
`(ip, key)` is currently rate limited): reads `rate_limit:{ip}:{key}`; no
record means not limited; a record whose 60 s window (from `firstAttempt`) has
expired is deleted and not limited; otherwise limited — the record's
`attempts` and `blockedUntil` fields are not consulted. -/
def AppKeyService.checkRateLimit (ip key : String) (store : Store) (now : Nat) :
    Bool × Store :=
  match cacheGet store now (.rateLimit ip key) with
  | some (.rl _ firstAttempt _) =>
    if now - firstAttempt > AppKeyService.RATE_LIMIT_WINDOW * 1000 then
      (false, cacheDel store (.rateLimit ip key))
    else
      (true, store)
  | _ => (false, store)

/-- `AppKeyService.incrementRateLimit`: creates `{attempts: 1, firstAttempt:
now}` with a 1 min TTL when no record exists; otherwise increments `attempts`
keeping `firstAttempt`, and when the result reaches `MAX_ATTEMPTS` sets
`blockedUntil = now + BLOCK_DURATION` and a 15 min TTL. -/
def AppKeyService.incrementRateLimit (ip key : String) (store : Store) (now : Nat) : Store :=
  match cacheGet store now (.rateLimit ip key) with
  | some (.rl attempts firstAttempt _) =>
    let attempts' := attempts + 1
    let shouldBlock := AppKeyService.MAX_ATTEMPTS ≤ attempts'
    cacheSet store (.rateLimit ip key)
      (.rl attempts' firstAttempt
        (if shouldBlock then some (now + AppKeyService.BLOCK_DURATION * 1000) else none))
      (some (now + (if shouldBlock then 15 * 60 * 1000 else 60 * 1000)))
  | _ => cacheSet store (.rateLimit ip key) (.rl 1 now none) (some (now + 60 * 1000))

/-! ## Cache lemmas -/

theorem cacheGet_del_self (s : Store) (k : CKey) (now : Nat) :
    cacheGet (cacheDel s k) now k = none := by
  induction s with
  | nil => rfl
  | cons p rest ih =>
    obtain ⟨k', e⟩ := p
    by_cases h : k' = k <;> simp [cacheDel, cacheGet, h, ih]

theorem cacheGet_del_ne {k' k : CKey} (s : Store) (now : Nat) (h : k' ≠ k) :
    cacheGet (cacheDel s k') now k = cacheGet s now k := by
  induction s with
  | nil => rfl
  | cons p rest ih =>
    obtain ⟨k₀, e⟩ := p
    by_cases h0 : k₀ = k'
    · subst h0
      simp [cacheDel, cacheGet, h, ih]
    · simp [cacheDel, cacheGet, h0, ih]

theorem cacheGet_set_self (s : Store) (k : CKey) (v : CVal) (t now : Nat) :
    cacheGet (cacheSet s k v (some t)) now k = if now < t then some v else none := by
  simp [cacheSet, cacheGet]

theorem cacheGet_set_self_lt {now t : Nat} (s : Store) (k : CKey) (v : CVal) (h : now < t) :
    cacheGet (cacheSet s k v (some t)) now k = some v := by
  simp [cacheSet, cacheGet, h]

theorem cacheGet_set_ne {k' k : CKey} (s : Store) (v : CVal) (e : Option Nat) (now : Nat)
    (h : k' ≠ k) : cacheGet (cacheSet s k' v e) now k = cacheGet s now k := by
  simp [cacheSet, cacheGet, h, cacheGet_del_ne s now h]

/-! ## Token service theorems -/

theorem validateToken_present (sha256 : String → String) (s2 : Store) (now' : Nat)
    (key : CKey) (tok : String) (hne : sha256 tok ≠ "")
    (hp : cacheGet s2 now' key = some (.str (sha256 tok))) :
    TokenService.validateToken sha256 s2 now' key tok = .ok true := by
  simp [TokenService.validateToken, hp, hne, timingSafeEqual]

/-- C1: a token pair produced by `generateSecureToken` and stored via
`storeTokenHash` under a key validates to `true` for that same key with the
exact generated plaintext while the stored digest is still present: (a) for
any cache state in which the digest is still stored under the key, and (b) in
particular right after `storeTokenHash`, at any time before the TTL expiry.
(`sha256` digests are non-empty hex strings, hence the `≠ ""` hypothesis.) -/
theorem C1_generate_store_validate (sha256 : String → String) (rnd : String) (key : CKey)
    (store : Store) (now now' ttl : Nat) (hne : sha256 rnd ≠ "") :
    (∀ s2 : Store,
      cacheGet s2 now' key =
        some (.str (TokenService.generateSecureToken sha256 rnd).hash) →
      TokenService.validateToken sha256 s2 now' key
        (TokenService.generateSecureToken sha256 rnd).token = .ok true) ∧
    (now' < now + ttl →
      TokenService.validateToken sha256
        (TokenService.storeTokenHash store now key
          (TokenService.generateSecureToken sha256 rnd).hash ttl)
        now' key (TokenService.generateSecureToken sha256 rnd).token = .ok true) := by
  constructor
  · intro s2 hp
    exact validateToken_present sha256 s2 now' key rnd hne hp
  · intro hlt
    apply validateToken_present sha256 _ now' key rnd hne
    exact cacheGet_set_self_lt store key _ hlt

/-- C1 witness. -/
theorem C1_generate_store_validate_witness :
    TokenService.validateToken (fun s => String.append "H" s)
      (TokenService.storeTokenHash [] 0 (.verifyEmail "e")
        (TokenService.generateSecureToken (fun s => String.append "H" s) "ab").hash 10)
      5 (.verifyEmail "e")
      (TokenService.generateSecureToken (fun s => String.append "H" s) "ab").token
      = .ok true :=
  (C1_generate_store_validate (fun s => String.append "H" s) "ab" (.verifyEmail "e") [] 0 5 10
    (by decide)).2 (by decide)

/-- C3 (amended): token verification fails closed, but by raising: for every
input the result is never `ok false`; an absent (expired or never issued)
stored digest raises `Token inválido ou expirado`; a present-but-mismatched
stored digest raises (the same message, or `timingSafeEqual`'s length
`RangeError`) — contrary to the claim, malformed input is answered with the
raised exception, never with a returned `false`. -/
theorem C3_validateToken_fails_closed (sha256 : String → String) (store : Store) (now : Nat)
    (k : CKey) (t : String) :
    (TokenService.validateToken sha256 store now k t ≠ .ok false) ∧
    (cacheGet store now k = none →
      TokenService.validateToken sha256 store now k t = .error "Token inválido ou expirado") ∧
    (∀ sh : String, cacheGet store now k = some (.str sh) → sh ≠ sha256 t →
      ∃ msg, TokenService.validateToken sha256 store now k t = .error msg) := by
  refine ⟨?_, ?_, ?_⟩
  · rcases hg : cacheGet store now k with - | v
    · simp [TokenService.validateToken, hg]
    · rcases v with s | n | ⟨a, f, b⟩ | u
      · by_cases hs : s = ""
        · simp [TokenService.validateToken, hg, hs]
        · by_cases hl : s.length = (sha256 t).length
          · by_cases he : s = sha256 t
            · subst he
              simp [TokenService.validateToken, hg, hs, timingSafeEqual, hl]
            · simp [TokenService.validateToken, hg, hs, timingSafeEqual, hl, he]
          · simp [TokenService.validateToken, hg, hs, timingSafeEqual, hl]
      · simp [TokenService.validateToken, hg]
      · simp [TokenService.validateToken, hg]
      · simp [TokenService.validateToken, hg]
  · intro hg
    simp [TokenService.validateToken, hg]
  · intro sh hg hne
    by_cases hs : sh = ""
    · exact ⟨"Token inválido ou expirado", by simp [TokenService.validateToken, hg, hs]⟩
    · by_cases hl : sh.length = (sha256 t).length
      · exact ⟨"Token inválido ou expirado",
          by simp [TokenService.validateToken, hg, hs, timingSafeEqual, hl, hne]⟩
      · exact ⟨"RangeError: Input buffers must have the same byte length",
          by simp [TokenService.validateToken, hg, hs, timingSafeEqual, hl]⟩

/-- C3 witness. -/
theorem C3_validateToken_fails_closed_witness :
    TokenService.validateToken (fun s => String.append "h:" s)
      [(.verifyEmail "a@b.c", ⟨.str "h:xxx", none⟩)] 0 (.verifyEmail "a@b.c") "tok"
      ≠ .ok false ∧
    TokenService.validateToken (fun s => String.append "h:" s) [] 0 (.verifyEmail "a@b.c") "tok"
      = .error "Token inválido ou expirado" := by
  constructor
  · exact (C3_validateToken_fails_closed (fun s => String.append "h:" s)
      [(.verifyEmail "a@b.c", ⟨.str "h:xxx", none⟩)] 0 (.verifyEmail "a@b.c") "tok").1
  · exact (C3_validateToken_fails_closed (fun s => String.append "h:" s)
      [] 0 (.verifyEmail "a@b.c") "tok").2.1 (by decide)

/-- C3 counterexample: with a stored digest present but mismatched, the code
raises `Token inválido ou expirado` — it does not return `false` as the claim
states for malformed input. -/
theorem C3_counterexample :
    TokenService.validateToken (fun s => String.append "h:" s)
      [(.verifyEmail "a@b.c", ⟨.str "h:xxx", none⟩)] 0 (.verifyEmail "a@b.c") "tok"
      = .error "Token inválido ou expirado" ∧
    TokenService.validateToken (fun s => String.append "h:" s)
      [(.verifyEmail "a@b.c", ⟨.str "h:xxx", none⟩)] 0 (.verifyEmail "a@b.c") "tok"
      ≠ .ok false := by
  constructor
  · rfl
  · decide

/-- C10: `AppKeyService.safeCompare` is total (it returns a `Bool` for every
pair of strings; the digests it compares always have equal length so
`timingSafeEqual` cannot throw, and the surrounding catch returns `false` on
any error), and it returns `true` exactly when the SHA-256 digests of the two
inputs are equal — which, for an injective digest function, is exactly when
the two strings are equal. -/
theorem C10_safeCompare_correct (sha256 : String → String) (a b : String) :
    AppKeyService.safeCompare sha256 a b = (sha256 a == sha256 b) ∧
      (Function.Injective sha256 →
        (AppKeyService.safeCompare sha256 a b = true ↔ a = b)) := by
  constructor
  · rfl
  · intro hinj
    simp only [AppKeyService.safeCompare, beq_iff_eq]
    exact ⟨fun h => hinj h, fun h => by rw [h]⟩

/-- C10 witness. -/
theorem C10_safeCompare_correct_witness :
    AppKeyService.safeCompare id "alpha" "beta" = (id "alpha" == id "beta") ∧
      (AppKeyService.safeCompare id "alpha" "beta" = true ↔ "alpha" = "beta") := by
  have h := C10_safeCompare_correct id "alpha" "beta"
  exact ⟨h.1, h.2 (fun x y hxy => hxy)⟩

/-! ## AppKeyService rate-limit theorems -/

/-- C5 (amended): `AppKeyService.checkRateLimit` does not mirror the
RateLimiter check: it denies (returns `true`) exactly when an unexpired-window
record exists for `(ip, key)` — regardless of the recorded `attempts` and of
`blockedUntil`, neither of which is consulted; when the 60 s window measured
from `firstAttempt` has expired it deletes the record and allows, even if
`blockedUntil` lies in the future; with no record it allows. -/
theorem C5_checkRateLimit_behaviour (ip key : String) (store : Store) (now : Nat) :
    ((AppKeyService.checkRateLimit ip key store now).1 = true ↔
      ∃ a fa bu, cacheGet store now (.rateLimit ip key) = some (.rl a fa bu) ∧
        now - fa ≤ AppKeyService.RATE_LIMIT_WINDOW * 1000) ∧
    (∀ a fa bu, cacheGet store now (.rateLimit ip key) = some (.rl a fa bu) →
      now - fa > AppKeyService.RATE_LIMIT_WINDOW * 1000 →
      AppKeyService.checkRateLimit ip key store now
        = (false, cacheDel store (.rateLimit ip key))) ∧
    (cacheGet store now (.rateLimit ip key) = none →
      AppKeyService.checkRateLimit ip key store now = (false, store)) := by
  refine ⟨?_, ?_, ?_⟩
  · constructor
    · intro ht
      rcases hg : cacheGet store now (.rateLimit ip key) with - | v
      · simp [AppKeyService.checkRateLimit, hg] at ht
      · rcases v with s | n | ⟨a, fa, bu⟩ | u
        · simp [AppKeyService.checkRateLimit, hg] at ht
        · simp [AppKeyService.checkRateLimit, hg] at ht
        · refine ⟨a, fa, bu, rfl, ?_⟩
          by_cases hw : now - fa > AppKeyService.RATE_LIMIT_WINDOW * 1000
          · simp [AppKeyService.checkRateLimit, hg, hw] at ht
          · omega
        · simp [AppKeyService.checkRateLimit, hg] at ht
    · rintro ⟨a, fa, bu, hg, hw⟩
      have hw' : ¬ now - fa > AppKeyService.RATE_LIMIT_WINDOW * 1000 := by omega
      simp [AppKeyService.checkRateLimit, hg, hw']
  · intro a fa bu hg hw
    simp [AppKeyService.checkRateLimit, hg, hw]
  · intro hg
    simp [AppKeyService.checkRateLimit, hg]

/-- C5 witness: an expired-window record with `blockedUntil` still in the
future is deleted and the check allows. -/
theorem C5_checkRateLimit_behaviour_witness :
    AppKeyService.checkRateLimit "9.9.9.9" "pk"
      [(.rateLimit "9.9.9.9" "pk", ⟨.rl 5 0 (some 900000), none⟩)] 100000
      = (false, []) :=
  (C5_checkRateLimit_behaviour "9.9.9.9" "pk"
    [(.rateLimit "9.9.9.9" "pk", ⟨.rl 5 0 (some 900000), none⟩)] 100000).2.1
    5 0 (some 900000) (by decide) (by decide)

/-- C5 counterexample: a record with `attempts = 1 < maxAttempts = 5` and no
block, inside the window, is denied — the check does not allow when
`attempts < maxAttempts`. -/
theorem C5_counterexample :
    (AppKeyService.checkRateLimit "1.2.3.4" "pk"
      [(.rateLimit "1.2.3.4" "pk", ⟨.rl 1 1000 none, none⟩)] 2000).1 = true ∧
    1 < AppKeyService.MAX_ATTEMPTS := by
  constructor
  · rfl
  · decide

/-! ## LoginProtection theorems -/

theorem check_preserves_accountBlocked (id ip : String) (cfg : RateLimitConfig)
    (store : Store) (now now' : Nat) (a : String) :
    cacheGet (RateLimiter.check id ip cfg store now).2 now' (.accountBlocked a) =
      cacheGet store now' (.accountBlocked a) := by
  simp only [RateLimiter.check]
  split
  · rfl
  · split
    · split
      · simp only
        rw [cacheGet_del_ne _ _ (by simp), cacheGet_del_ne _ _ (by simp),
          cacheGet_del_ne _ _ (by simp)]
      · rfl
    · rfl

theorem checkLoginAttempt_of_blocked (id ip : String) (store : Store) (now bu : Nat)
    (hb : cacheGet store now (.accountBlocked id) = some (.num bu)) (hlt : now < bu) :
    (LoginProtectionService.checkLoginAttempt id ip store now).1
      = ⟨false, 0, some bu, true⟩ := by
  have hb1 : cacheGet
      (RateLimiter.check ("login:" ++ id) ip LoginProtectionService.RATE_LIMIT_CONFIG
        store now).2 now (.accountBlocked id) = some (.num bu) := by
    rw [check_preserves_accountBlocked]
    exact hb
  have hbu : ¬ bu = 0 := by omega
  simp [LoginProtectionService.checkLoginAttempt, LoginProtectionService.isAccountBlocked,
    LoginProtectionService.getAccountBlockKey, hb1, hlt, hbu]

/-- C8 (amended): whenever the `AccountBlocked` entry for the identifier is
active (unexpired), `checkLoginAttempt` returns `allowed := false`,
`isBlocked := true` and the stored `blockedUntil`, and the rate limiter's
result does not influence this outcome — but the rate limiter IS consulted:
`RateLimiter.check` runs first (and may prune an expired window record)
before the account block is inspected. -/
theorem C8_blocked_overrides_rate_limiter (id ip : String) (store : Store) (now bu : Nat)
    (hb : cacheGet store now (.accountBlocked id) = some (.num bu)) (hlt : now < bu) :
    (LoginProtectionService.checkLoginAttempt id ip store now).1
      = ⟨false, 0, some bu, true⟩ ∧
    (LoginProtectionService.checkLoginAttempt id ip store now).2
      = (RateLimiter.check ("login:" ++ id) ip LoginProtectionService.RATE_LIMIT_CONFIG
          store now).2 := by
  refine ⟨checkLoginAttempt_of_blocked id ip store now bu hb hlt, ?_⟩
  simp only [LoginProtectionService.checkLoginAttempt]
  split <;> rfl

/-- C8 witness. -/
theorem C8_blocked_overrides_rate_limiter_witness :
    (LoginProtectionService.checkLoginAttempt "alice" "1.2.3.4"
      [(.accountBlocked "alice", ⟨.num 5000, none⟩)] 10).1
      = ⟨false, 0, some 5000, true⟩ :=
  (C8_blocked_overrides_rate_limiter "alice" "1.2.3.4"
    [(.accountBlocked "alice", ⟨.num 5000, none⟩)] 10 5000 (by decide) (by decide)).1

/-- C8 counterexample: with an active account block AND an expired
rate-limiter window record in the cache, `checkLoginAttempt` returns the
blocked outcome but the resulting cache differs from the input cache — the
rate limiter was consulted (its lazy expiry pruned the record), contradicting
`the rate limiter is not consulted`. -/
theorem C8_counterexample :
    LoginProtectionService.checkLoginAttempt "alice" "7.7.7.7"
      [(.accountBlocked "alice", ⟨.num 2000000, none⟩),
       (.rlWindow "login:alice" "7.7.7.7", ⟨.num 0, some 1000000000⟩),
       (.rlAttempts "login:alice" "7.7.7.7", ⟨.num 2, some 1000000000⟩)] 1000000
      = (⟨false, 0, some 2000000, true⟩,
         [(.accountBlocked "alice", ⟨.num 2000000, none⟩)]) ∧
    ([(.accountBlocked "alice", ⟨.num 2000000, none⟩)] : Store)
      ≠ [(.accountBlocked "alice", ⟨.num 2000000, none⟩),
         (.rlWindow "login:alice" "7.7.7.7", ⟨.num 0, some 1000000000⟩),
         (.rlAttempts "login:alice" "7.7.7.7", ⟨.num 2, some 1000000000⟩)] := by
  constructor
  · rfl
  · decide

/-- C7 (amended): a successful `recordLoginAttempt` deletes the rate-limiter
state for the login scope of the identifier at the presented IP only — the
state recorded under other IPs for the same identifier survives — and leaves
any pre-existing `AccountBlocked` entry unchanged (it expires only by time);
no e-mail is sent. -/
theorem C7_success_clears_per_ip (id ip : String) (store : Store) (now : Nat)
    (nm em : Option String) :
    (LoginProtectionService.recordLoginAttempt id ip true nm em store now).2 = [] ∧
    (∀ now',
      cacheGet (LoginProtectionService.recordLoginAttempt id ip true nm em store now).1 now'
        (.rlAttempts ("login:" ++ id) ip) = none ∧
      cacheGet (LoginProtectionService.recordLoginAttempt id ip true nm em store now).1 now'
        (.rlWindow ("login:" ++ id) ip) = none ∧
      cacheGet (LoginProtectionService.recordLoginAttempt id ip true nm em store now).1 now'
        (.rlBlocked ("login:" ++ id) ip) = none) ∧
    (∀ now' ip', ip' ≠ ip →
      cacheGet (LoginProtectionService.recordLoginAttempt id ip true nm em store now).1 now'
        (.rlAttempts ("login:" ++ id) ip')
        = cacheGet store now' (.rlAttempts ("login:" ++ id) ip')) ∧
    (∀ now' a,
      cacheGet (LoginProtectionService.recordLoginAttempt id ip true nm em store now).1 now'
        (.accountBlocked a) = cacheGet store now' (.accountBlocked a)) := by
  have hrec : (LoginProtectionService.recordLoginAttempt id ip true nm em store now)
      = (RateLimiter.clearAttempts ("login:" ++ id) ip store, []) := rfl
  refine ⟨by rw [hrec], ?_, ?_, ?_⟩
  · intro now'
    rw [hrec]
    refine ⟨?_, ?_, ?_⟩
    · simp only [RateLimiter.clearAttempts]
      rw [cacheGet_del_ne _ _ (by simp), cacheGet_del_ne _ _ (by simp), cacheGet_del_self]
    · simp only [RateLimiter.clearAttempts]
      rw [cacheGet_del_ne _ _ (by simp), cacheGet_del_self]
    · simp only [RateLimiter.clearAttempts]
      rw [cacheGet_del_self]
  · intro now' ip' hip
    rw [hrec]
    simp only [RateLimiter.clearAttempts]
    rw [cacheGet_del_ne _ _ (by simp), cacheGet_del_ne _ _ (by simp),
      cacheGet_del_ne _ _ (by simp [hip.symm])]
  · intro now' a
    rw [hrec]
    simp only [RateLimiter.clearAttempts]
    rw [cacheGet_del_ne _ _ (by simp), cacheGet_del_ne _ _ (by simp),
      cacheGet_del_ne _ _ (by simp)]

/-- C7 witness. -/
theorem C7_success_clears_per_ip_witness :
    cacheGet (LoginProtectionService.recordLoginAttempt "alice" "1.1.1.1" true none none
      [(.rlAttempts "login:alice" "2.2.2.2", ⟨.num 3, none⟩)] 0).1 0
      (.rlAttempts "login:alice" "2.2.2.2")
      = cacheGet [(.rlAttempts "login:alice" "2.2.2.2", ⟨.num 3, none⟩)] 0
          (.rlAttempts "login:alice" "2.2.2.2") :=
  (C7_success_clears_per_ip "alice" "1.1.1.1"
    [(.rlAttempts "login:alice" "2.2.2.2", ⟨.num 3, none⟩)] 0 none none).2.2.1
    0 "2.2.2.2" (by decide)

/-- C7 counterexample: a successful login from IP `1.1.1.1` leaves the
attempts counter recorded for the same identifier under IP `2.2.2.2` in
place — the claim that ALL rate-limiter state for the login scope of the
identifier is deleted is false. -/
theorem C7_counterexample :
    (LoginProtectionService.recordLoginAttempt "alice" "1.1.1.1" true none none
      [(.rlAttempts "login:alice" "2.2.2.2", ⟨.num 3, none⟩)] 0).1
      = [(.rlAttempts "login:alice" "2.2.2.2", ⟨.num 3, none⟩)] ∧
    cacheGet (LoginProtectionService.recordLoginAttempt "alice" "1.1.1.1" true none none
      [(.rlAttempts "login:alice" "2.2.2.2", ⟨.num 3, none⟩)] 0).1 0
      (.rlAttempts "login:alice" "2.2.2.2") = some (.num 3) := by
  constructor <;> rfl

theorem recordAttempt_fresh (l i : String) (cfg : RateLimitConfig) (t : Nat)
    (h1 : ¬ cfg.maxAttempts ≤ 1) :
    RateLimiter.recordAttempt l i cfg [] t =
      [(.rlWindow l i, ⟨.num t, some (t + cfg.windowMs)⟩),
       (.rlAttempts l i, ⟨.num 1, some (t + cfg.windowMs)⟩)] := by
  simp [RateLimiter.recordAttempt, cacheGet, cacheSet, cacheDel, h1]

theorem recordAttempt_step (l i : String) (cfg : RateLimitConfig) (ws e n t : Nat)
    (hlive : t < e) (hwin : ¬ t - ws > cfg.windowMs) (hmax : ¬ cfg.maxAttempts ≤ n + 1) :
    RateLimiter.recordAttempt l i cfg
      [(.rlWindow l i, ⟨.num ws, some e⟩), (.rlAttempts l i, ⟨.num n, some e⟩)] t =
      [(.rlWindow l i, ⟨.num ws, some (t + cfg.windowMs)⟩),
       (.rlAttempts l i, ⟨.num (n + 1), some (t + cfg.windowMs)⟩)] := by
  simp [RateLimiter.recordAttempt, cacheGet, cacheSet, cacheDel, hlive, hwin, hmax]

theorem recordAttempt_block (l i : String) (cfg : RateLimitConfig) (ws e n t : Nat)
    (hlive : t < e) (hwin : ¬ t - ws > cfg.windowMs) (hmax : cfg.maxAttempts ≤ n + 1) :
    RateLimiter.recordAttempt l i cfg
      [(.rlWindow l i, ⟨.num ws, some e⟩), (.rlAttempts l i, ⟨.num n, some e⟩)] t =
      [(.rlBlocked l i, ⟨.num (t + cfg.blockTimeMs), some (t + cfg.blockTimeMs)⟩),
       (.rlWindow l i, ⟨.num ws, some (t + cfg.blockTimeMs)⟩),
       (.rlAttempts l i, ⟨.num (n + 1), some (t + cfg.blockTimeMs)⟩)] := by
  simp [RateLimiter.recordAttempt, cacheGet, cacheSet, cacheDel, hlive, hwin, hmax]

theorem RATE_LIMIT_CONFIG_eq :
    LoginProtectionService.RATE_LIMIT_CONFIG = ⟨5, 900000, 1800000⟩ := rfl

theorem recordLogin_first (id ip : String) (t : Nat) :
    LoginProtectionService.recordLoginAttempt id ip false none none [] t
      = ([(.rlWindow ("login:" ++ id) ip, ⟨.num t, some (t + 900000)⟩),
          (.rlAttempts ("login:" ++ id) ip, ⟨.num 1, some (t + 900000)⟩)], []) := by
  have hl : t < t + 900000 := by omega
  have hfresh : RateLimiter.recordAttempt ("login:" ++ id) ip
      (⟨5, 900000, 1800000⟩ : RateLimitConfig) [] t
      = [(.rlWindow ("login:" ++ id) ip, ⟨.num t, some (t + 900000)⟩),
         (.rlAttempts ("login:" ++ id) ip, ⟨.num 1, some (t + 900000)⟩)] :=
    recordAttempt_fresh ("login:" ++ id) ip ⟨5, 900000, 1800000⟩ t (by decide)
  simp [LoginProtectionService.recordLoginAttempt, hfresh,
    LoginProtectionService.getFailedAttempts, LoginProtectionService.MAX_ATTEMPTS,
    RATE_LIMIT_CONFIG_eq, cacheGet, hl]

theorem recordLogin_mid (id ip : String) (ws n tp t : Nat)
    (hwin : t < ws + 900000) (hws : ws ≤ tp) (hn : n + 1 < 5) :
    LoginProtectionService.recordLoginAttempt id ip false none none
      [(.rlWindow ("login:" ++ id) ip, ⟨.num ws, some (tp + 900000)⟩),
       (.rlAttempts ("login:" ++ id) ip, ⟨.num n, some (tp + 900000)⟩)] t
      = ([(.rlWindow ("login:" ++ id) ip, ⟨.num ws, some (t + 900000)⟩),
          (.rlAttempts ("login:" ++ id) ip, ⟨.num (n + 1), some (t + 900000)⟩)], []) := by
  have hl : t < t + 900000 := by omega
  have hn5 : ¬ (5 ≤ n + 1) := by omega
  have hstep : RateLimiter.recordAttempt ("login:" ++ id) ip
      (⟨5, 900000, 1800000⟩ : RateLimitConfig)
      [(.rlWindow ("login:" ++ id) ip, ⟨.num ws, some (tp + 900000)⟩),
       (.rlAttempts ("login:" ++ id) ip, ⟨.num n, some (tp + 900000)⟩)] t
      = [(.rlWindow ("login:" ++ id) ip, ⟨.num ws, some (t + 900000)⟩),
         (.rlAttempts ("login:" ++ id) ip, ⟨.num (n + 1), some (t + 900000)⟩)] :=
    recordAttempt_step ("login:" ++ id) ip ⟨5, 900000, 1800000⟩ ws (tp + 900000) n t
      (by omega) (show ¬ t - ws > 900000 by omega) (show ¬ 5 ≤ n + 1 by omega)
  simp [LoginProtectionService.recordLoginAttempt, hstep,
    LoginProtectionService.getFailedAttempts, LoginProtectionService.MAX_ATTEMPTS,
    RATE_LIMIT_CONFIG_eq, cacheGet, hl, hn5]

theorem recordLogin_block_step (id ip : String) (ws tp t : Nat)
    (hwin : t < ws + 900000) (hws : ws ≤ tp) :
    LoginProtectionService.recordLoginAttempt id ip false none none
      [(.rlWindow ("login:" ++ id) ip, ⟨.num ws, some (tp + 900000)⟩),
       (.rlAttempts ("login:" ++ id) ip, ⟨.num 4, some (tp + 900000)⟩)] t
      = ([(.accountBlocked id, ⟨.num (t + 7200000), some (t + 7200000)⟩),
          (.rlBlocked ("login:" ++ id) ip, ⟨.num (t + 1800000), some (t + 1800000)⟩),
          (.rlWindow ("login:" ++ id) ip, ⟨.num ws, some (t + 1800000)⟩),
          (.rlAttempts ("login:" ++ id) ip, ⟨.num 5, some (t + 1800000)⟩)], []) := by
  have hl : t < t + 1800000 := by omega
  have hstep : RateLimiter.recordAttempt ("login:" ++ id) ip
      (⟨5, 900000, 1800000⟩ : RateLimitConfig)
      [(.rlWindow ("login:" ++ id) ip, ⟨.num ws, some (tp + 900000)⟩),
       (.rlAttempts ("login:" ++ id) ip, ⟨.num 4, some (tp + 900000)⟩)] t
      = [(.rlBlocked ("login:" ++ id) ip, ⟨.num (t + 1800000), some (t + 1800000)⟩),
         (.rlWindow ("login:" ++ id) ip, ⟨.num ws, some (t + 1800000)⟩),
         (.rlAttempts ("login:" ++ id) ip, ⟨.num 5, some (t + 1800000)⟩)] :=
    recordAttempt_block ("login:" ++ id) ip ⟨5, 900000, 1800000⟩ ws (tp + 900000) 4 t
      (by omega) (show ¬ t - ws > 900000 by omega) (show 5 ≤ 4 + 1 by omega)
  simp [LoginProtectionService.recordLoginAttempt, hstep,
    LoginProtectionService.getFailedAttempts, LoginProtectionService.MAX_ATTEMPTS,
    LoginProtectionService.blockAccount, LoginProtectionService.getAccountBlockKey,
    LoginProtectionService.EXTENDED_BLOCK_TIME_MS, RATE_LIMIT_CONFIG_eq,
    cacheGet, cacheSet, cacheDel, hl]

/-- C6: five failed `recordLoginAttempt` calls for the same identifier and IP
within the 15 min window, starting from a fresh state, set the account-level
block for the extended duration (`t5 + 2 h`, four times the 30 min short
block), and every subsequent `checkLoginAttempt` for that identifier made
while the block is unexpired returns `isBlocked = true`, `allowed = false`
and that `blockedUntil` — regardless of the IP presented on the later call. -/
theorem C6_five_failures_extended_block (id ip ip' : String) (t1 t2 t3 t4 t5 now' : Nat)
    (h12 : t1 ≤ t2) (h23 : t2 ≤ t3) (h34 : t3 ≤ t4) (h45 : t4 ≤ t5)
    (hwin : t5 < t1 + LoginProtectionService.WINDOW_MS)
    (hnow : now' < t5 + LoginProtectionService.EXTENDED_BLOCK_TIME_MS) :
    cacheGet
      (LoginProtectionService.recordLoginAttempt id ip false none none
        (LoginProtectionService.recordLoginAttempt id ip false none none
          (LoginProtectionService.recordLoginAttempt id ip false none none
            (LoginProtectionService.recordLoginAttempt id ip false none none
              (LoginProtectionService.recordLoginAttempt id ip false none none [] t1).1
              t2).1 t3).1 t4).1 t5).1
      now' (.accountBlocked id)
      = some (.num (t5 + LoginProtectionService.EXTENDED_BLOCK_TIME_MS)) ∧
    (LoginProtectionService.checkLoginAttempt id ip'
      (LoginProtectionService.recordLoginAttempt id ip false none none
        (LoginProtectionService.recordLoginAttempt id ip false none none
          (LoginProtectionService.recordLoginAttempt id ip false none none
            (LoginProtectionService.recordLoginAttempt id ip false none none
              (LoginProtectionService.recordLoginAttempt id ip false none none [] t1).1
              t2).1 t3).1 t4).1 t5).1 now').1
      = ⟨false, 0, some (t5 + LoginProtectionService.EXTENDED_BLOCK_TIME_MS), true⟩ := by
  simp only [LoginProtectionService.WINDOW_MS] at hwin
  simp only [LoginProtectionService.EXTENDED_BLOCK_TIME_MS] at hnow
  norm_num at hwin hnow
  rw [recordLogin_first id ip t1]
  rw [show ((([(CKey.rlWindow ("login:" ++ id) ip, ⟨.num t1, some (t1 + 900000)⟩),
        (CKey.rlAttempts ("login:" ++ id) ip, ⟨.num 1, some (t1 + 900000)⟩)] : Store), []).1 : Store)
      = [(CKey.rlWindow ("login:" ++ id) ip, ⟨.num t1, some (t1 + 900000)⟩),
        (CKey.rlAttempts ("login:" ++ id) ip, ⟨.num 1, some (t1 + 900000)⟩)] from rfl]
  rw [recordLogin_mid id ip t1 1 t1 t2 (by omega) (by omega) (by omega)]
  rw [show ((([(CKey.rlWindow ("login:" ++ id) ip, ⟨.num t1, some (t2 + 900000)⟩),
        (CKey.rlAttempts ("login:" ++ id) ip, ⟨.num 2, some (t2 + 900000)⟩)] : Store), []).1 : Store)
      = [(CKey.rlWindow ("login:" ++ id) ip, ⟨.num t1, some (t2 + 900000)⟩),
        (CKey.rlAttempts ("login:" ++ id) ip, ⟨.num 2, some (t2 + 900000)⟩)] from rfl]
  rw [recordLogin_mid id ip t1 2 t2 t3 (by omega) (by omega) (by omega)]
  rw [show ((([(CKey.rlWindow ("login:" ++ id) ip, ⟨.num t1, some (t3 + 900000)⟩),
        (CKey.rlAttempts ("login:" ++ id) ip, ⟨.num 3, some (t3 + 900000)⟩)] : Store), []).1 : Store)
      = [(CKey.rlWindow ("login:" ++ id) ip, ⟨.num t1, some (t3 + 900000)⟩),
        (CKey.rlAttempts ("login:" ++ id) ip, ⟨.num 3, some (t3 + 900000)⟩)] from rfl]
  rw [recordLogin_mid id ip t1 3 t3 t4 (by omega) (by omega) (by omega)]
  rw [show ((([(CKey.rlWindow ("login:" ++ id) ip, ⟨.num t1, some (t4 + 900000)⟩),
        (CKey.rlAttempts ("login:" ++ id) ip, ⟨.num 4, some (t4 + 900000)⟩)] : Store), []).1 : Store)
      = [(CKey.rlWindow ("login:" ++ id) ip, ⟨.num t1, some (t4 + 900000)⟩),
        (CKey.rlAttempts ("login:" ++ id) ip, ⟨.num 4, some (t4 + 900000)⟩)] from rfl]
  rw [recordLogin_block_step id ip t1 t4 t5 (by omega) (by omega)]
  have hacct : cacheGet
      [(CKey.accountBlocked id, ⟨.num (t5 + 7200000), some (t5 + 7200000)⟩),
       (CKey.rlBlocked ("login:" ++ id) ip, ⟨.num (t5 + 1800000), some (t5 + 1800000)⟩),
       (CKey.rlWindow ("login:" ++ id) ip, ⟨.num t1, some (t5 + 1800000)⟩),
       (CKey.rlAttempts ("login:" ++ id) ip, ⟨.num 5, some (t5 + 1800000)⟩)] now'
      (.accountBlocked id) = some (.num (t5 + 7200000)) := by
    simp [cacheGet, hnow]
  constructor
  · simpa [LoginProtectionService.EXTENDED_BLOCK_TIME_MS] using hacct
  · have := checkLoginAttempt_of_blocked id ip'
      [(CKey.accountBlocked id, ⟨.num (t5 + 7200000), some (t5 + 7200000)⟩),
       (CKey.rlBlocked ("login:" ++ id) ip, ⟨.num (t5 + 1800000), some (t5 + 1800000)⟩),
       (CKey.rlWindow ("login:" ++ id) ip, ⟨.num t1, some (t5 + 1800000)⟩),
       (CKey.rlAttempts ("login:" ++ id) ip, ⟨.num 5, some (t5 + 1800000)⟩)] now'
      (t5 + 7200000) hacct (by omega)
    simpa [LoginProtectionService.EXTENDED_BLOCK_TIME_MS] using this

/-- C6 witness. -/
theorem C6_five_failures_extended_block_witness :
    cacheGet
      (LoginProtectionService.recordLoginAttempt "alice" "1.2.3.4" false none none
        (LoginProtectionService.recordLoginAttempt "alice" "1.2.3.4" false none none
          (LoginProtectionService.recordLoginAttempt "alice" "1.2.3.4" false none none
            (LoginProtectionService.recordLoginAttempt "alice" "1.2.3.4" false none none
              (LoginProtectionService.recordLoginAttempt "alice" "1.2.3.4" false none none
                [] 0).1 60000).1 120000).1 180000).1 240000).1
      300000 (.accountBlocked "alice")
      = some (.num (240000 + LoginProtectionService.EXTENDED_BLOCK_TIME_MS)) ∧
    (LoginProtectionService.checkLoginAttempt "alice" "5.6.7.8"
      (LoginProtectionService.recordLoginAttempt "alice" "1.2.3.4" false none none
        (LoginProtectionService.recordLoginAttempt "alice" "1.2.3.4" false none none
          (LoginProtectionService.recordLoginAttempt "alice" "1.2.3.4" false none none
            (LoginProtectionService.recordLoginAttempt "alice" "1.2.3.4" false none none
              (LoginProtectionService.recordLoginAttempt "alice" "1.2.3.4" false none none
                [] 0).1 60000).1 120000).1 180000).1 240000).1 300000).1
      = ⟨false, 0, some (240000 + LoginProtectionService.EXTENDED_BLOCK_TIME_MS), true⟩ :=
  C6_five_failures_extended_block "alice" "1.2.3.4" "5.6.7.8" 0 60000 120000 180000 240000
    300000 (by decide) (by decide) (by decide) (by decide) (by decide) (by decide)

/-! ## Token-flow theorems -/

/-- C2: completing a flow twice with the same valid plaintext succeeds exactly
once, for both e-mail verification and password reset: the first call returns
`true` and deletes the stored digest; the second call (at any later time)
fails with the `Token inválido ou expirado` (InvalidOrExpiredToken) error
because the digest is absent. -/
theorem C2_confirm_twice_succeeds_once (sha256 : String → String)
    (email token pw ip : String) (s : St) (now now2 : Nat) (user : UserRec)
    (hne : sha256 token ≠ "") :
    (cacheGet s.cache now (.verifyEmail (normalizeEmail email)) = some (.str (sha256 token)) →
     findByEmail s.users (normalizeEmail email) = some user →
     (EmailVerificationService.verifyEmail sha256 email token ip s now).1 = .ok true ∧
     cacheGet (EmailVerificationService.verifyEmail sha256 email token ip s now).2.cache now2
       (.verifyEmail (normalizeEmail email)) = none ∧
     (EmailVerificationService.verifyEmail sha256 email token ip
       (EmailVerificationService.verifyEmail sha256 email token ip s now).2 now2).1
       = .error "Token inválido ou expirado") ∧
    (cacheGet s.cache now (.resetKey (normalizeEmail email)) = some (.str (sha256 token)) →
     findByEmail s.users (normalizeEmail email) = some user →
     user.isActive = true → user.isDeleted = false →
     (PasswordService.resetPassword sha256 email token pw ip s now).1 = .ok true ∧
     cacheGet (PasswordService.resetPassword sha256 email token pw ip s now).2.cache now2
       (.resetKey (normalizeEmail email)) = none ∧
     (PasswordService.resetPassword sha256 email token pw ip
       (PasswordService.resetPassword sha256 email token pw ip s now).2 now2).1
       = .error "Token inválido ou expirado") := by
  constructor
  · intro hp hu
    have hv := validateToken_present sha256 s.cache now (.verifyEmail (normalizeEmail email))
      token hne hp
    have h1 : EmailVerificationService.verifyEmail sha256 email token ip s now
        = (.ok true,
           { cache := EmailVerificationService.cleanupAfterVerification user.id
               (normalizeEmail email) ip s.cache
             users := s.users.map
               (fun u => if u.id = user.id then { u with emailVerifiedAt := some now } else u)
             emails := s.emails }) := by
      simp [EmailVerificationService.verifyEmail, EmailVerificationService.getVerifyKey,
        hv, hu]
    have hdel : cacheGet (EmailVerificationService.cleanupAfterVerification user.id
        (normalizeEmail email) ip s.cache) now2 (.verifyEmail (normalizeEmail email)) = none := by
      simp only [EmailVerificationService.cleanupAfterVerification,
        EmailVerificationService.getVerifyKey, RateLimiter.clearAttempts]
      rw [cacheGet_del_ne _ _ (by simp), cacheGet_del_ne _ _ (by simp),
        cacheGet_del_ne _ _ (by simp), cacheGet_del_self]
    refine ⟨by rw [h1], by rw [h1]; exact hdel, ?_⟩
    rw [h1]
    simp [EmailVerificationService.verifyEmail, EmailVerificationService.getVerifyKey,
      TokenService.validateToken, hdel]
  · intro hp hu hact hdel'
    have hv := validateToken_present sha256 s.cache now (.resetKey (normalizeEmail email))
      token hne hp
    have h1 : PasswordService.resetPassword sha256 email token pw ip s now
        = (.ok true,
           { cache := PasswordService.cleanupAfterReset user.id (normalizeEmail email) ip s.cache
             users := s.users.map
               (fun u => if u.id = user.id then { u with password := pw } else u)
             emails := s.emails ++ [PasswordService.successEmail (emailOrUsername user)] }) := by
      simp [PasswordService.resetPassword, PasswordService.getResetKey, hv, hu, hact, hdel']
    have hdel : cacheGet (PasswordService.cleanupAfterReset user.id
        (normalizeEmail email) ip s.cache) now2 (.resetKey (normalizeEmail email)) = none := by
      simp only [PasswordService.cleanupAfterReset, PasswordService.getResetKey,
        RateLimiter.clearAttempts]
      rw [cacheGet_del_ne _ _ (by simp), cacheGet_del_ne _ _ (by simp),
        cacheGet_del_ne _ _ (by simp), cacheGet_del_self]
    refine ⟨by rw [h1], by rw [h1]; exact hdel, ?_⟩
    rw [h1]
    simp [PasswordService.resetPassword, PasswordService.getResetKey,
      TokenService.validateToken, hdel]

/-- C2 witness. -/
theorem C2_confirm_twice_succeeds_once_witness :
    (EmailVerificationService.verifyEmail (fun s => String.append "H" s) "a@b.c" "t" "9"
      ⟨[(.verifyEmail "a@b.c", ⟨.str "Ht", none⟩), (.resetKey "a@b.c", ⟨.str "Ht", none⟩)],
       [⟨1, some "a@b.c", "ab", "A", true, false, "p", none, none, none⟩], []⟩ 0).1
      = .ok true ∧
    (EmailVerificationService.verifyEmail (fun s => String.append "H" s) "a@b.c" "t" "9"
      (EmailVerificationService.verifyEmail (fun s => String.append "H" s) "a@b.c" "t" "9"
        ⟨[(.verifyEmail "a@b.c", ⟨.str "Ht", none⟩), (.resetKey "a@b.c", ⟨.str "Ht", none⟩)],
         [⟨1, some "a@b.c", "ab", "A", true, false, "p", none, none, none⟩], []⟩ 0).2 7).1
      = .error "Token inválido ou expirado" ∧
    (PasswordService.resetPassword (fun s => String.append "H" s) "a@b.c" "t" "q" "9"
      ⟨[(.verifyEmail "a@b.c", ⟨.str "Ht", none⟩), (.resetKey "a@b.c", ⟨.str "Ht", none⟩)],
       [⟨1, some "a@b.c", "ab", "A", true, false, "p", none, none, none⟩], []⟩ 0).1
      = .ok true ∧
    (PasswordService.resetPassword (fun s => String.append "H" s) "a@b.c" "t" "q" "9"
      (PasswordService.resetPassword (fun s => String.append "H" s) "a@b.c" "t" "q" "9"
        ⟨[(.verifyEmail "a@b.c", ⟨.str "Ht", none⟩), (.resetKey "a@b.c", ⟨.str "Ht", none⟩)],
         [⟨1, some "a@b.c", "ab", "A", true, false, "p", none, none, none⟩], []⟩ 0).2 7).1
      = .error "Token inválido ou expirado" := by
  have h := C2_confirm_twice_succeeds_once (fun s => String.append "H" s) "a@b.c" "t" "q" "9"
    ⟨[(.verifyEmail "a@b.c", ⟨.str "Ht", none⟩), (.resetKey "a@b.c", ⟨.str "Ht", none⟩)],
     [⟨1, some "a@b.c", "ab", "A", true, false, "p", none, none, none⟩], []⟩ 0 7
    ⟨1, some "a@b.c", "ab", "A", true, false, "p", none, none, none⟩ (by decide)
  have hv := h.1 (by decide) (by decide)
  have hr := h.2 (by decide) (by decide) (by decide) (by decide)
  exact ⟨hv.1, hv.2.2, hr.1, hr.2.2⟩

/-- C9 (amended): when the rate-limit check does not allow a token request,
the operation returns `false` without generating or storing a token — but the
two flows differ on notifications: the e-mail-verification flow is silent (no
e-mail, state unchanged but for the check's own lazy pruning), while the
password-reset flow sends an excessive-attempts notification e-mail to the
user before returning `false`. -/
theorem C9_throttled_request (sha256 : String → String) (cfg : RateLimitConfig) (rnd : String)
    (user : UserRec) (email ip : String) (s : St) (now : Nat) :
    ((RateLimiter.check ("verify:" ++ normalizeEmail (emailOrUsername user)) ip cfg
        s.cache now).1.allowed = false →
      EmailVerificationService.requestEmailVerification sha256 cfg rnd user ip s now
        = (.ok false,
           { s with cache := (RateLimiter.check
               ("verify:" ++ normalizeEmail (emailOrUsername user)) ip cfg s.cache now).2 })) ∧
    (findByEmail s.users (normalizeEmail email) = some user → user.isActive = true →
     user.isDeleted = false →
     (RateLimiter.check ("reset:" ++ normalizeEmail email) ip cfg s.cache now).1.allowed
       = false →
      PasswordService.requestPasswordReset sha256 cfg rnd email ip s now
        = (.ok false,
           { s with
             cache := (RateLimiter.check ("reset:" ++ normalizeEmail email) ip cfg s.cache now).2
             emails := s.emails ++ [PasswordService.blockedEmail (emailOrUsername user)] })) := by
  constructor
  · intro h
    simp [EmailVerificationService.requestEmailVerification, h]
  · intro hu hact hdel h
    simp [PasswordService.requestPasswordReset, hu, hact, hdel, h]

/-- C9 witness. -/
theorem C9_throttled_request_witness :
    EmailVerificationService.requestEmailVerification (fun s => String.append "H" s)
      ⟨5, 900000, 1800000⟩ "r"
      ⟨1, some "a@b.c", "ab", "A", true, false, "p", none, none, none⟩ "9"
      ⟨[(.rlBlocked "verify:a@b.c" "9", ⟨.num 1000000, none⟩),
        (.rlBlocked "reset:a@b.c" "9", ⟨.num 1000000, none⟩)],
       [⟨1, some "a@b.c", "ab", "A", true, false, "p", none, none, none⟩], []⟩ 0
      = (.ok false,
         ⟨[(.rlBlocked "verify:a@b.c" "9", ⟨.num 1000000, none⟩),
           (.rlBlocked "reset:a@b.c" "9", ⟨.num 1000000, none⟩)],
          [⟨1, some "a@b.c", "ab", "A", true, false, "p", none, none, none⟩], []⟩) ∧
    PasswordService.requestPasswordReset (fun s => String.append "H" s)
      ⟨5, 900000, 1800000⟩ "r" "a@b.c" "9"
      ⟨[(.rlBlocked "verify:a@b.c" "9", ⟨.num 1000000, none⟩),
        (.rlBlocked "reset:a@b.c" "9", ⟨.num 1000000, none⟩)],
       [⟨1, some "a@b.c", "ab", "A", true, false, "p", none, none, none⟩], []⟩ 0
      = (.ok false,
         ⟨[(.rlBlocked "verify:a@b.c" "9", ⟨.num 1000000, none⟩),
           (.rlBlocked "reset:a@b.c" "9", ⟨.num 1000000, none⟩)],
          [⟨1, some "a@b.c", "ab", "A", true, false, "p", none, none, none⟩],
          [PasswordService.blockedEmail "a@b.c"]⟩) := by
  have h := C9_throttled_request (fun s => String.append "H" s) ⟨5, 900000, 1800000⟩ "r"
    ⟨1, some "a@b.c", "ab", "A", true, false, "p", none, none, none⟩ "a@b.c" "9"
    ⟨[(.rlBlocked "verify:a@b.c" "9", ⟨.num 1000000, none⟩),
      (.rlBlocked "reset:a@b.c" "9", ⟨.num 1000000, none⟩)],
     [⟨1, some "a@b.c", "ab", "A", true, false, "p", none, none, none⟩], []⟩ 0
  exact ⟨h.1 (by decide), h.2 (by decide) (by decide) (by decide) (by decide)⟩

/-- C9 counterexample: a throttled password-reset request for an existing
active user returns `false` but sends the excessive-attempts notification —
contradicting `without sending any notification`. -/
theorem C9_counterexample :
    (PasswordService.requestPasswordReset (fun s => String.append "H" s)
      ⟨5, 900000, 1800000⟩ "r" "a@b.c" "9"
      ⟨[(.rlBlocked "reset:a@b.c" "9", ⟨.num 1000000, none⟩)],
       [⟨1, some "a@b.c", "ab", "A", true, false, "p", none, none, none⟩], []⟩ 0).1
      = .ok false ∧
    (PasswordService.requestPasswordReset (fun s => String.append "H" s)
      ⟨5, 900000, 1800000⟩ "r" "a@b.c" "9"
      ⟨[(.rlBlocked "reset:a@b.c" "9", ⟨.num 1000000, none⟩)],
       [⟨1, some "a@b.c", "ab", "A", true, false, "p", none, none, none⟩], []⟩ 0).2.emails
      = [PasswordService.blockedEmail "a@b.c"] ∧
    [PasswordService.blockedEmail "a@b.c"] ≠ ([] : List Email) := by
  refine ⟨rfl, rfl, by decide⟩

/-- C4 (code bug): on a password mismatch for an existing active user,
`User.verifyCredentials` (AdonisJS `withAuthFinder`) throws
`E_INVALID_CREDENTIALS` itself, so the recording branch `if (!authUser)` that
follows it in `AuthService.login` is unreachable: the login fails with the
invalid-credentials error but no rate-limiter attempt is recorded, contrary
to the claim.  For contrast, the user-not-found path does record an attempt
before throwing `Credenciais inválidas`. -/
theorem C4_password_mismatch_records_no_attempt :
    AuthService.login "a@b.c" "wrong" "9.9.9.9"
      ⟨[], [⟨1, some "a@b.c", "ab", "A", true, false, "right", none, none, none⟩], []⟩ 0
      = (.error "Invalid user credentials",
         ⟨[], [⟨1, some "a@b.c", "ab", "A", true, false, "right", none, none, none⟩], []⟩) ∧
    LoginProtectionService.getFailedAttempts
      (AuthService.login "a@b.c" "wrong" "9.9.9.9"
        ⟨[], [⟨1, some "a@b.c", "ab", "A", true, false, "right", none, none, none⟩], []⟩
        0).2.cache 0 "a@b.c" "9.9.9.9" = 0 ∧
    (AuthService.login "ghost@x.y" "w" "9.9.9.9"
      ⟨[], [⟨1, some "a@b.c", "ab", "A", true, false, "right", none, none, none⟩], []⟩ 0).1
      = .error "Credenciais inválidas" ∧
    LoginProtectionService.getFailedAttempts
      (AuthService.login "ghost@x.y" "w" "9.9.9.9"
        ⟨[], [⟨1, some "a@b.c", "ab", "A", true, false, "right", none, none, none⟩], []⟩
        0).2.cache 0 "ghost@x.y" "9.9.9.9" = 1 := by
  refine ⟨rfl, rfl, rfl, rfl⟩
